import Mathlib

/-!
Verification development for the meeting-scheduler form component
(src/meeting-scheduler.tsx).

The component is shallowly embedded: the zod form schema becomes a
validation function over a draft record, the React state hooks become a
`SchedulerState` record, the asynchronous suggestion fetch becomes a state
transition parameterised by the outcome of the request, and the submit
handler becomes a function producing explicit effects (a suggestion
request or a finalized record).
-/

namespace MeetingScheduler

/-- Meeting priority, from `z.enum(["low", "medium", "high"])`. -/
inductive Priority where
  | low
  | medium
  | high
deriving DecidableEq, Repr

/-- The raw form value space: every field that zod marks required via a
`required_error` (or that has no form default) may still be absent before
validation runs, so those fields are `Option`. Dates are integers
(milliseconds since the Unix epoch, as in a JS `Date` value). -/
structure MeetingDraft where
  title : String
  description : Option String
  date : Option Int
  duration : Option String
  participants : List String
  timezone : Option String
  priority : Option Priority
  themeColor : Option String
deriving DecidableEq, Repr

/-- The validated values delivered to `onSubmit` once the schema accepts
the draft (`z.infer<typeof formSchema>`). -/
structure FormValues where
  title : String
  description : Option String
  date : Int
  duration : String
  participants : List String
  timezone : String
  priority : Priority
  themeColor : String
deriving DecidableEq, Repr

deriving instance DecidableEq for Except

/-- Characters admitted in the body of the local part of an email by zod's
email pattern: letters, digits, underscore, apostrophe (code 39), plus,
minus and dot. -/
def emailLocalChar (c : Char) : Bool :=
  c.isAlpha || c.isDigit || c = '_' || c.toNat = 39 || c = '+' || c = '-' || c = '.'

/-- Characters admitted as the last character of the local part: the body
characters minus dot and apostrophe. -/
def emailLocalLastChar (c : Char) : Bool :=
  c.isAlpha || c.isDigit || c = '_' || c = '+' || c = '-'

/-- True when the character list contains two consecutive dots. -/
def hasDoubleDot : List Char → Bool
  | [] => false
  | [_] => false
  | a :: b :: rest => (a = '.' && b = '.') || hasDoubleDot (b :: rest)

/-- The local part of an email (before the at sign): non-empty, made of
the admitted characters, not starting with a dot, no two consecutive
dots, and ending in a character other than dot or apostrophe. -/
def isValidLocalPart (cs : List Char) : Bool :=
  match cs with
  | [] => false
  | c :: _ =>
    c != '.' && !hasDoubleDot cs && cs.all emailLocalChar &&
      match cs.getLast? with
      | none => false
      | some lastC => emailLocalLastChar lastC

/-- A non-final domain label: an alphanumeric character followed by
alphanumerics or hyphens. -/
def isDomainLabel (cs : List Char) : Bool :=
  match cs with
  | [] => false
  | c :: rest => (c.isAlpha || c.isDigit) && rest.all (fun x => x.isAlpha || x.isDigit || x = '-')

/-- The final domain label: at least two characters, letters only. -/
def isFinalLabel (cs : List Char) : Bool :=
  2 ≤ cs.length && cs.all Char.isAlpha

/-- Splits a character list at every occurrence of the separator, keeping
empty pieces, so that for instance a leading separator yields a leading
empty piece. -/
def splitOnChar (sep : Char) : List Char → List (List Char)
  | [] => [[]]
  | c :: rest =>
    match splitOnChar sep rest with
    | [] => [[c]]
    | hd :: tl => if c = sep then [] :: hd :: tl else (c :: hd) :: tl

/-- The domain part of an email: one or more dot-separated labels followed
by a final label of at least two letters. -/
def isValidDomain (cs : List Char) : Bool :=
  match (splitOnChar '.' cs).reverse with
  | [] => false
  | fin :: restRev =>
    !restRev.isEmpty && restRev.all isDomainLabel && isFinalLabel fin

/-- Models the email check of `z.string().email()`: a local part, a single
at sign, and a domain, following zod's email pattern. -/
def isValidEmail (s : String) : Bool :=
  match splitOnChar '@' s.toList with
  | [lp, dom] => isValidLocalPart lp && isValidDomain dom
  | _ => false

/-- Title errors: `z.string().min(2, ...)`. -/
def titleErrors (d : MeetingDraft) : List (String × String) :=
  if d.title.length < 2 then [("title", "Meeting title must be at least 2 characters.")] else []

/-- Date errors: `z.date({ required_error: ... })`. -/
def dateErrors (d : MeetingDraft) : List (String × String) :=
  match d.date with
  | none => [("date", "A date is required.")]
  | some _ => []

/-- Duration errors: `z.string({ required_error: ... })`. The schema only
requires the field to be present; it does not restrict its value. -/
def durationErrors (d : MeetingDraft) : List (String × String) :=
  match d.duration with
  | none => [("duration", "Please select meeting duration")]
  | some _ => []

/-- Participant errors: `z.array(z.string().email()).min(1, ...)`: one
issue per element failing the email check, plus the minimum-length issue
when the array is empty. -/
def participantsErrors (d : MeetingDraft) : List (String × String) :=
  (d.participants.filter (fun p => !isValidEmail p)).map
      (fun _ => ("participants", "Invalid email")) ++
    (if d.participants.length < 1 then
      [("participants", "At least one participant is required")]
    else [])

/-- Timezone errors: `z.string({ required_error: ... })`. -/
def timezoneErrors (d : MeetingDraft) : List (String × String) :=
  match d.timezone with
  | none => [("timezone", "Please select a timezone")]
  | some _ => []

/-- Priority errors: `z.enum(["low", "medium", "high"])`, default zod
required message. -/
def priorityErrors (d : MeetingDraft) : List (String × String) :=
  match d.priority with
  | none => [("priority", "Required")]
  | some _ => []

/-- Theme color errors: `z.string()`, default zod required message. -/
def themeColorErrors (d : MeetingDraft) : List (String × String) :=
  match d.themeColor with
  | none => [("themeColor", "Required")]
  | some _ => []

/-- All validation issues of the draft against `formSchema`, in the
declaration order of the schema fields. -/
def validationErrors (d : MeetingDraft) : List (String × String) :=
  titleErrors d ++ dateErrors d ++ durationErrors d ++ participantsErrors d ++
    timezoneErrors d ++ priorityErrors d ++ themeColorErrors d

/-- Models `formSchema.parse` as used by the zod resolver: the draft is
accepted exactly when every field rule passes, producing the typed values
handed to `onSubmit`; otherwise the field issues are reported. -/
def validateDraft (d : MeetingDraft) : Except (List (String × String)) FormValues :=
  match d.date, d.duration, d.timezone, d.priority, d.themeColor with
  | some dt, some du, some tz, some pr, some tc =>
    if 2 ≤ d.title.length && 1 ≤ d.participants.length && d.participants.all isValidEmail then
      Except.ok ⟨d.title, d.description, dt, du, d.participants, tz, pr, tc⟩
    else
      Except.error (validationErrors d)
  | _, _, _, _, _ => Except.error (validationErrors d)

/-- Fixed duration options offered by the duration select; the only
duration values reachable through the UI. -/
def durations : List (String × String) :=
  [("15", "15 minutes"), ("30", "30 minutes"), ("45", "45 minutes"), ("60", "1 hour")]

/-- Fixed timezone options offered by the timezone select. -/
def timezones : List (String × String) :=
  [("UTC", "UTC"), ("America/New_York", "Eastern Time"), ("America/Chicago", "Central Time"),
    ("America/Denver", "Mountain Time"), ("America/Los_Angeles", "Pacific Time")]

/-- A meeting template preset: name plus the three fields it assigns. -/
structure MeetingTemplate where
  name : String
  duration : String
  description : String
  priority : Priority
deriving DecidableEq, Repr

/-- The three fixed template presets (`meetingTemplates`). -/
def meetingTemplates : List MeetingTemplate :=
  [⟨"Quick Sync", "15", "Brief alignment meeting", Priority.low⟩,
   ⟨"Team Planning", "60", "Detailed team planning session", Priority.medium⟩,
   ⟨"Client Presentation", "45", "Important client meeting", Priority.high⟩]

/-- Models `applyTemplate`: three `form.setValue` calls overwriting the
duration, description and priority fields of the live draft. -/
def applyTemplate (t : MeetingTemplate) (d : MeetingDraft) : MeetingDraft :=
  { d with duration := some t.duration, description := some t.description,
           priority := some t.priority }

/-- The component's hook state: the live draft held by the form, the
suggestion list, the selected time label (the empty string when none is
selected, as in the `useState<string>("")` hook), the loading flag and the
dark-mode flag. -/
structure SchedulerState where
  draft : MeetingDraft
  suggestedTimes : List String
  selectedTime : String
  loading : Bool
  isDarkMode : Bool
deriving DecidableEq, Repr

/-- The form's `defaultValues`: date and duration are not given a default
and start absent. -/
def defaultDraft : MeetingDraft :=
  { title := "", description := some "", date := none, duration := none,
    participants := [""], timezone := some "UTC", priority := some Priority.medium,
    themeColor := some "blue" }

/-- The component state on mount. -/
def initialState : SchedulerState :=
  { draft := defaultDraft, suggestedTimes := [], selectedTime := "", loading := false,
    isDarkMode := false }

/-- Models a suggested-time badge click: `setSelectedTime(time)`. -/
def selectTime (st : SchedulerState) (t : String) : SchedulerState :=
  { st with selectedTime := t }

/-- Outcome of the suggestion fetch as observed by the component: either
the decoded JSON array of time labels, or any transport or decoding
failure (the single `catch` branch). -/
inductive FetchOutcome where
  | success : List String → FetchOutcome
  | failure : FetchOutcome
deriving DecidableEq, Repr

/-- Models `getSuggestedTimes`: sets the loading flag, then on success
stores the returned times, on failure only logs the error, and finally
clears the loading flag on either path. -/
def getSuggestedTimes (st : SchedulerState) (o : FetchOutcome) : SchedulerState :=
  let st1 := { st with loading := true }
  let st2 := match o with
    | FetchOutcome.success times => { st1 with suggestedTimes := times }
    | FetchOutcome.failure => st1
  { st2 with loading := false }

/-- The body sent by the suggestion fetch:
`{ participants, duration, timezone }` taken from the validated values. -/
structure SuggestRequest where
  participants : List String
  duration : String
  timezone : String
deriving DecidableEq, Repr

/-- The record logged on finalization: `{ ...values, time: selectedTime }`. -/
structure CompletedRecord where
  values : FormValues
  time : String
deriving DecidableEq, Repr

/-- An externally visible effect of a submit: either the single suggestion
request, or the finalized record emitted to the log sink (the confetti
call is purely visual and carries no data). -/
inductive SubmitEffect where
  | requestSuggestions : SuggestRequest → SubmitEffect
  | finalize : CompletedRecord → SubmitEffect
deriving DecidableEq, Repr

/-- Models `onSubmit` on validated values: when no time is selected
(`!selectedTime`, i.e. the empty string) it requests suggestions and
returns; otherwise it finalizes with the completed record. -/
def onSubmit (selectedTime : String) (values : FormValues) : SubmitEffect :=
  if selectedTime = "" then
    SubmitEffect.requestSuggestions
      ⟨values.participants, values.duration, values.timezone⟩
  else
    SubmitEffect.finalize ⟨values, selectedTime⟩

/-- Models one full submit of the form (`form.handleSubmit(onSubmit)`):
validation failure aborts with no effect and no state change; otherwise
`onSubmit` runs, and in the suggestion branch the state evolves through
`getSuggestedTimes` under the given fetch outcome. Returns the new state
and the effects issued. -/
def submitStep (st : SchedulerState) (o : FetchOutcome) :
    SchedulerState × List SubmitEffect :=
  match validateDraft st.draft with
  | Except.error _ => (st, [])
  | Except.ok v =>
    match onSubmit st.selectedTime v with
    | SubmitEffect.requestSuggestions req =>
      (getSuggestedTimes st o, [SubmitEffect.requestSuggestions req])
    | SubmitEffect.finalize r => (st, [SubmitEffect.finalize r])

/-- Models `Number.parseInt` on the base-10 digit strings the duration
select produces: the leading run of decimal digits, `none` for NaN when
there is none. -/
def parseIntJS (s : String) : Option Nat :=
  let ds := s.toList.takeWhile Char.isDigit
  if ds.isEmpty then none
  else some (ds.foldl (fun acc c => acc * 10 + (c.toNat - 48)) 0)

/-- Models `form.watch("duration") || "0"`: an absent field and the empty
string are both falsy in JS and fall back to the string zero. -/
def watchedDuration (duration : Option String) : String :=
  match duration with
  | none => "0"
  | some s => if s = "" then "0" else s

/-- Models the meeting-cost effect:
`participants.length * (parsed duration / 60) * 100`, with `none` for a
NaN parse. Rationals stand in for JS doubles: for every duration value
the select offers, each intermediate product and the division by 60 are
exact in binary floating point, so the two agree on all reachable
inputs. -/
def meetingCost (participants : List String) (duration : Option String) : Option ℚ :=
  (parseIntJS (watchedDuration duration)).map
    (fun d => (participants.length : ℚ) * ((d : ℚ) / 60) * 100)

/-- Midnight 1900-01-01 UTC in milliseconds since the Unix epoch
(`new Date("1900-01-01")`). -/
def date1900 : Int := -2208988800000

/-- Models the calendar's disabled predicate:
`(date) => date < new Date() || date < new Date("1900-01-01")`, over
millisecond timestamps. -/
def calendarDisabled (d now : Int) : Bool :=
  d < now || d < date1900

/-- A draft that passes every rule of the schema. -/
def validDraft : MeetingDraft :=
  { title := "Standup", description := some "Daily sync", date := some 1760227200000,
    duration := some "30", participants := ["a@b.com"], timezone := some "UTC",
    priority := some Priority.medium, themeColor := some "blue" }

/-- The validated values `validDraft` parses to. -/
def validValues : FormValues :=
  ⟨"Standup", some "Daily sync", 1760227200000, "30", ["a@b.com"], "UTC",
    Priority.medium, "blue"⟩

/-- A component state holding `validDraft` with no time selected. -/
def requestState : SchedulerState :=
  { draft := validDraft, suggestedTimes := [], selectedTime := "", loading := false,
    isDarkMode := false }

/-- A component state holding `validDraft` with a suggestion chosen. -/
def finalizeState : SchedulerState :=
  { draft := validDraft, suggestedTimes := ["10:00 AM", "2:00 PM"],
    selectedTime := "2:00 PM", loading := false, isDarkMode := false }

/-- The request body the suggestion fetch sends for `validValues`. -/
def sampleRequest : SuggestRequest := ⟨["a@b.com"], "30", "UTC"⟩

/-- C4: a suggestion fetch that fails leaves every piece of state except
the loading flag exactly as it was — in particular the suggestion set is
not replaced and, the state having no error field at all, no user-facing
error can be surfaced — and the loading flag is cleared on every outcome,
success or failure. -/
theorem c4_fetch_failure_swallowed (st : SchedulerState) (o : FetchOutcome) :
    (getSuggestedTimes st o).loading = false ∧
    getSuggestedTimes st FetchOutcome.failure = { st with loading := false } := by
  refine ⟨?_, rfl⟩
  cases o <;> rfl

/-- C5: applying any of the three templates overwrites exactly the
duration, description and priority fields, leaves title, date,
participants, timezone and themeColor unchanged, and the Quick Sync
preset carries duration 15, description "Brief alignment meeting" and
low priority. -/
theorem c5_apply_template (t : MeetingTemplate) (d : MeetingDraft)
    (h : t ∈ meetingTemplates) :
    ((applyTemplate t d).duration = some t.duration ∧
     (applyTemplate t d).description = some t.description ∧
     (applyTemplate t d).priority = some t.priority) ∧
    ((applyTemplate t d).title = d.title ∧ (applyTemplate t d).date = d.date ∧
     (applyTemplate t d).participants = d.participants ∧
     (applyTemplate t d).timezone = d.timezone ∧
     (applyTemplate t d).themeColor = d.themeColor) ∧
    (t.name = "Quick Sync" →
      t.duration = "15" ∧ t.description = "Brief alignment meeting" ∧
      t.priority = Priority.low) := by
  refine ⟨⟨rfl, rfl, rfl⟩, ⟨rfl, rfl, rfl, rfl, rfl⟩, ?_⟩
  intro hn
  fin_cases h <;> simp_all

/-- Witness for C5 at the Quick Sync template applied to the default
draft. -/
theorem c5_apply_template_witness :
    (applyTemplate ⟨"Quick Sync", "15", "Brief alignment meeting", Priority.low⟩
        defaultDraft).duration = some "15" ∧
    (applyTemplate ⟨"Quick Sync", "15", "Brief alignment meeting", Priority.low⟩
        defaultDraft).title = defaultDraft.title :=
  ⟨(c5_apply_template _ defaultDraft (by decide)).1.1,
   (c5_apply_template _ defaultDraft (by decide)).2.1.1⟩

/-- C8: the calendar's disabled predicate rejects past dates and dates
before 1900-01-01, and whenever the current instant is on or after
1900-01-01 the disjunction collapses to the past-date test alone: the
1900 bound is unreachable. -/
theorem c8_date_bound_redundant (d now : Int) (h : date1900 ≤ now) :
    (calendarDisabled d now = true ↔ d < now) := by
  simp only [calendarDisabled, Bool.or_eq_true, decide_eq_true_eq]
  constructor
  · rintro (hd | hd)
    · exact hd
    · unfold date1900 at h hd
      omega
  · exact fun hd => Or.inl hd

/-- Witness for C8 at a current instant of the Unix epoch and a date one
millisecond earlier. -/
theorem c8_date_bound_redundant_witness :
    date1900 ≤ (0 : Int) ∧ (calendarDisabled (-1) 0 = true ↔ (-1 : Int) < 0) :=
  ⟨by decide, c8_date_bound_redundant (-1) 0 (by decide)⟩

/-- C9: on mount the draft's participants list is exactly one empty
string — so the minimum-length rule is already satisfied and its message
is absent, yet the empty string fails the email check and its issue is
present, making an untouched submission fail validation — and the other
defaults are title "", description "", timezone "UTC", priority medium,
themeColor "blue", with date and duration absent. -/
theorem c9_default_draft :
    defaultDraft.participants = [""] ∧
    1 ≤ defaultDraft.participants.length ∧
    ("participants", "At least one participant is required") ∉ validationErrors defaultDraft ∧
    isValidEmail "" = false ∧
    ("participants", "Invalid email") ∈ validationErrors defaultDraft ∧
    validateDraft defaultDraft = Except.error (validationErrors defaultDraft) ∧
    defaultDraft.title = "" ∧ defaultDraft.description = some "" ∧
    defaultDraft.timezone = some "UTC" ∧ defaultDraft.priority = some Priority.medium ∧
    defaultDraft.themeColor = some "blue" ∧ defaultDraft.date = none ∧
    defaultDraft.duration = none := by
  decide

/-- C1: on a draft the schema accepts, a submit with no time label
selected issues exactly the one suggestion request (built from the
validated participants, duration and timezone) and finalizes nothing,
while a submit with a time label selected emits exactly the completed
record carrying the validated draft fields unchanged plus the selected
label as its time. -/
theorem c1_submit_two_phase (st : SchedulerState) (o : FetchOutcome) (v : FormValues)
    (hv : validateDraft st.draft = Except.ok v) :
    (st.selectedTime = "" →
      (submitStep st o).2 =
        [SubmitEffect.requestSuggestions ⟨v.participants, v.duration, v.timezone⟩]) ∧
    (st.selectedTime ≠ "" →
      (submitStep st o).2 = [SubmitEffect.finalize ⟨v, st.selectedTime⟩]) := by
  constructor <;> intro h <;> simp [submitStep, hv, onSubmit, h]

/-- Witness for C1: the valid draft submitted once with nothing selected
and once with "2:00 PM" selected. -/
theorem c1_submit_two_phase_witness :
    (submitStep requestState (FetchOutcome.success ["10:00 AM", "2:00 PM"])).2 =
      [SubmitEffect.requestSuggestions sampleRequest] ∧
    (submitStep finalizeState FetchOutcome.failure).2 =
      [SubmitEffect.finalize ⟨validValues, "2:00 PM"⟩] :=
  ⟨(c1_submit_two_phase requestState _ validValues (by decide)).1 (by decide),
   (c1_submit_two_phase finalizeState _ validValues (by decide)).2 (by decide)⟩

/-- C3: when the draft's participants list is empty, validation reports
the minimum-length message, and the whole submit aborts: no effect is
issued (in particular no suggestion request) and the state is
unchanged. -/
theorem c3_empty_participants (st : SchedulerState) (o : FetchOutcome)
    (h : st.draft.participants = []) :
    ("participants", "At least one participant is required") ∈ validationErrors st.draft ∧
    submitStep st o = (st, []) := by
  constructor
  · simp [validationErrors, participantsErrors, h]
  · have hv : validateDraft st.draft = Except.error (validationErrors st.draft) := by
      unfold validateDraft
      cases st.draft.date <;> cases st.draft.duration <;> cases st.draft.timezone <;>
        cases st.draft.priority <;> cases st.draft.themeColor <;> simp [h]
    simp [submitStep, hv]

/-- The initial state with the default participant entry removed. -/
def emptyParticipantsState : SchedulerState :=
  { initialState with draft := { defaultDraft with participants := [] } }

/-- Witness for C3 at the default draft with its participants removed. -/
theorem c3_empty_participants_witness :
    ("participants", "At least one participant is required") ∈
      validationErrors emptyParticipantsState.draft ∧
    submitStep emptyParticipantsState FetchOutcome.failure = (emptyParticipantsState, []) :=
  c3_empty_participants emptyParticipantsState FetchOutcome.failure (by decide)

/-- C6: clicking a suggested-time badge changes only the selection state —
the draft, the suggestion set and the loading flag are untouched — and the
selection is a single label that each click replaces; moreover whenever a
submit issues a suggestion request, the selection state of the resulting
state is empty (a request is only ever issued with nothing selected, and
the fetch never sets a selection). -/
theorem c6_selection_invariants (st : SchedulerState) (t : String) (o : FetchOutcome)
    (v : FormValues) (req : SuggestRequest) :
    ((selectTime st t).draft = st.draft ∧
     (selectTime st t).suggestedTimes = st.suggestedTimes ∧
     (selectTime st t).loading = st.loading ∧
     (selectTime st t).selectedTime = t) ∧
    (validateDraft st.draft = Except.ok v →
      onSubmit st.selectedTime v = SubmitEffect.requestSuggestions req →
      (submitStep st o).1.selectedTime = "") := by
  refine ⟨⟨rfl, rfl, rfl, rfl⟩, ?_⟩
  intro hv hreq
  by_cases hsel : st.selectedTime = ""
  · cases o <;> simp [submitStep, hv, onSubmit, hsel, getSuggestedTimes]
  · simp [onSubmit, hsel] at hreq

/-- Witness for C6: selecting "2:00 PM" on the valid request state, and
the request-issuing submit of that state. -/
theorem c6_selection_invariants_witness :
    ((selectTime requestState "2:00 PM").draft = requestState.draft ∧
     (selectTime requestState "2:00 PM").suggestedTimes = requestState.suggestedTimes ∧
     (selectTime requestState "2:00 PM").loading = requestState.loading ∧
     (selectTime requestState "2:00 PM").selectedTime = "2:00 PM") ∧
    (submitStep requestState (FetchOutcome.success ["10:00 AM", "2:00 PM"])).1.selectedTime
      = "" :=
  ⟨(c6_selection_invariants requestState "2:00 PM"
      (FetchOutcome.success ["10:00 AM", "2:00 PM"]) validValues sampleRequest).1,
   (c6_selection_invariants requestState "2:00 PM"
      (FetchOutcome.success ["10:00 AM", "2:00 PM"]) validValues sampleRequest).2
     (by decide) (by decide)⟩

/-- C10: a finalizing submit (time label selected, draft accepted by the
schema) mutates nothing — the draft, suggestion set, selection and
loading flag all survive unchanged, the step returning the very same
state — so a repeated submit in that state finalizes again and emits the
identical record. -/
theorem c10_finalize_no_mutation (st : SchedulerState) (o : FetchOutcome) (v : FormValues)
    (hv : validateDraft st.draft = Except.ok v) (hsel : st.selectedTime ≠ "") :
    submitStep st o = (st, [SubmitEffect.finalize ⟨v, st.selectedTime⟩]) ∧
    submitStep (submitStep st o).1 o = (st, [SubmitEffect.finalize ⟨v, st.selectedTime⟩]) := by
  have h1 : submitStep st o = (st, [SubmitEffect.finalize ⟨v, st.selectedTime⟩]) := by
    simp [submitStep, hv, onSubmit, hsel]
  refine ⟨h1, ?_⟩
  rw [h1]
  exact h1

/-- Witness for C10 at the valid draft with "2:00 PM" selected. -/
theorem c10_finalize_no_mutation_witness :
    submitStep finalizeState FetchOutcome.failure =
      (finalizeState, [SubmitEffect.finalize ⟨validValues, "2:00 PM"⟩]) ∧
    submitStep (submitStep finalizeState FetchOutcome.failure).1 FetchOutcome.failure =
      (finalizeState, [SubmitEffect.finalize ⟨validValues, "2:00 PM"⟩]) :=
  c10_finalize_no_mutation finalizeState FetchOutcome.failure validValues
    (by decide) (by decide)

/-- C2: for every participant list and every duration in the enumerated
set, the computed cost is exactly the participant count times the
duration in hours times the hourly rate of 100, and the cost depends on
the participant list only through its length (the recomputation on every
change is the effect hook; the value itself is this pure function). -/
theorem c2_meeting_cost (ps qs : List String) (dur : Option String) (d : Nat) :
    (d ∈ [15, 30, 45, 60] →
      meetingCost ps (some (toString d)) =
        some ((ps.length : ℚ) * ((d : ℚ) / 60) * 100)) ∧
    (ps.length = qs.length → meetingCost ps dur = meetingCost qs dur) := by
  constructor
  · intro hd
    fin_cases hd
    · have h : parseIntJS (watchedDuration (some (toString (15 : Nat)))) = some 15 := by
        decide
      simp [meetingCost, h]
    · have h : parseIntJS (watchedDuration (some (toString (30 : Nat)))) = some 30 := by
        decide
      simp [meetingCost, h]
    · have h : parseIntJS (watchedDuration (some (toString (45 : Nat)))) = some 45 := by
        decide
      simp [meetingCost, h]
    · have h : parseIntJS (watchedDuration (some (toString (60 : Nat)))) = some 60 := by
        decide
      simp [meetingCost, h]
  · intro hlen
    simp [meetingCost, hlen]

/-- Witness for C2: three participants at one hour cost exactly 300, and
two one-element lists give the same cost. -/
theorem c2_meeting_cost_witness :
    meetingCost ["a@b.com", "b@c.com", "c@d.com"] (some (toString (60 : Nat))) =
      some (300 : ℚ) ∧
    meetingCost ["a@b.com"] (some "45") = meetingCost ["x"] (some "45") := by
  constructor
  · have h := (c2_meeting_cost ["a@b.com", "b@c.com", "c@d.com"] [] (some "45") 60).1
      (by decide)
    rw [h]
    norm_num
  · exact (c2_meeting_cost ["a@b.com"] ["x"] (some "45") 60).2 (by decide)

/-- A draft identical to a valid one except that its duration string is
not one of the four values the select offers. -/
def strayDurationDraft : MeetingDraft :=
  { title := "Board meeting", description := some "", date := some 1760227200000,
    duration := some "99", participants := ["a@b.com"], timezone := some "UTC",
    priority := some Priority.high, themeColor := some "red" }

/-- Counterexample to C7: a draft whose duration is the string 99 —
present but outside the enumerated set of the duration select — passes
schema validation with no duration issue, so validation of the duration
field does not require membership in the set. -/
theorem c7_duration_counterexample :
    validateDraft strayDurationDraft =
      Except.ok ⟨"Board meeting", some "", 1760227200000, "99", ["a@b.com"], "UTC",
        Priority.high, "red"⟩ ∧
    durationErrors strayDurationDraft = [] ∧
    parseIntJS "99" = some 99 ∧
    (99 : Nat) ∉ [15, 30, 45, 60] ∧
    "99" ∉ (durations.map fun p => p.1) := by
  decide

/-- C7 amended: validation of the duration field succeeds exactly when
the field is present — the duration issue appears among the validation
errors precisely when the duration is absent, and any accepted draft
passes its duration string through unrestricted; membership in
{15, 30, 45, 60} is enforced only by the fixed options of the duration
select, not by the schema. -/
theorem c7_duration_required_only (d : MeetingDraft) :
    (("duration", "Please select meeting duration") ∈ validationErrors d ↔
      d.duration = none) ∧
    (∀ v : FormValues, validateDraft d = Except.ok v → d.duration = some v.duration) := by
  constructor
  · unfold validationErrors titleErrors dateErrors durationErrors participantsErrors
      timezoneErrors priorityErrors themeColorErrors
    cases d.date <;> cases d.duration <;> cases d.timezone <;> cases d.priority <;>
      cases d.themeColor <;> split_ifs <;> simp_all
  · intro v hv
    unfold validateDraft at hv
    cases hdt : d.date <;> cases hdu : d.duration <;> cases ht : d.timezone <;>
      cases hp : d.priority <;> cases htc : d.themeColor <;>
      simp only [hdt, hdu, ht, hp, htc] at hv <;> try simp at hv
    split at hv
    · simp only [Except.ok.injEq] at hv
      subst hv
      simp [hdu]
    · simp at hv

/-- Witness for the amended C7 at the valid draft, whose duration string
30 is carried through validation unchanged. -/
theorem c7_duration_required_only_witness :
    (("duration", "Please select meeting duration") ∈ validationErrors validDraft ↔
      validDraft.duration = none) ∧
    validDraft.duration = some validValues.duration :=
  ⟨(c7_duration_required_only validDraft).1,
   (c7_duration_required_only validDraft).2 validValues (by decide)⟩

end MeetingScheduler
